import Mathlib

/-!
Verification of the Copier reconciliation component of the app-operator
repository (`pkg/controller/odooinstance/components/copier.go`).

The Go code is shallowly embedded: the external store (list/get/create/delete),
the template renderer and the controller-reference helper are modelled as an
explicit environment record whose fields give the outcome of each external
call in one reconciliation pass; `reconcile` is a pure function of that
environment which additionally returns the ordered trace of side-effecting
calls it issued.  Run-time crashes of the Go code (failed type assertion on
`ctx.Top`, nil-pointer dereference of `Spec.ParentHostname`) are modelled by
an `Option` result: `none` means the pass crashes.
-/

namespace Copier

/-- An opaque store/library error value, identified by a numeric code. -/
structure StoreErr where
  code : Nat
deriving DecidableEq, Repr

/-- Modelled from the spec: the state recorded in the Instance's "Created"
status condition (`pkg/apis/instance/v1beta1` is not part of the sources);
the spec names two distinct transitions that write to it:
job-creation-initiated and job-succeeded. -/
inductive CreatedConditionState where
  | initiated
  | succeeded
deriving DecidableEq, Repr

/-- A reference from an owned object back to its owning instance,
as installed by `controllerutil.SetControllerReference`. -/
structure OwnerRef where
  namespc : String
  name : String
deriving DecidableEq, Repr

/-- The `batchv1.Job` type, restricted to the fields the copier reads or writes:
name, namespace, the success and failure counters of `Job.Status`, and the
controller owner reference. -/
structure Job where
  name : String
  namespc : String
  succeeded : Nat
  failed : Nat
  ownerRef : Option OwnerRef
deriving DecidableEq, Repr

/-- The `instancev1beta1.OdooInstance` type, restricted to the fields the copier
reads or writes.  `clusterLabel` is the value of the
`cluster.odoo.io/name` label, `hostnameLabel` the value of the
`instance.odoo.io/hostname` label (Go map lookup of an absent key yields
the empty string).  `createdCondition` is the "Created" status condition,
modelled from the spec (see `CreatedConditionState`): `none` means the
condition is not set. -/
structure OdooInstance where
  namespc : String
  name : String
  hostname : String
  parentHostname : Option String
  clusterLabel : String
  hostnameLabel : String
  createdCondition : Option CreatedConditionState
deriving DecidableEq, Repr

/-- Modelled from the spec: `OdooInstance.SetStatusConditionCopyJobCreationCreated`
(in the apis package, not part of the sources) marks the "Created" condition
as "copy job creation initiated". -/
def OdooInstance.setStatusConditionCopyJobCreationCreated (i : OdooInstance) : OdooInstance :=
  { i with createdCondition := some .initiated }

/-- Modelled from the spec: `OdooInstance.SetStatusConditionCopyJobSuccessCreated`
(in the apis package, not part of the sources) marks the "Created" condition
as "copy succeeded". -/
def OdooInstance.setStatusConditionCopyJobSuccessCreated (i : OdooInstance) : OdooInstance :=
  { i with createdCondition := some .succeeded }

/-- The `ctx.Top` object of the component context: a runtime object that the copier
type-asserts to `*OdooInstance`.  `other` stands for any object of a
different dynamic type, on which the assertion crashes. -/
inductive TopObject where
  | odooInstance (i : OdooInstance)
  | other
deriving DecidableEq, Repr

/-- Outcome of the `ctx.Get` lookup of the copy job: the job exists, the
store reports not-found, or the call fails with some other error. -/
inductive GetOutcome where
  | found (j : Job)
  | notFound
  | storeError (e : StoreErr)
deriving DecidableEq, Repr

/-- Deletion propagation policy passed to `ctx.Delete`. -/
inductive PropagationPolicy where
  | background
  | foreground
  | orphan
deriving DecidableEq, Repr

/-- One side-effecting call issued by a reconciliation pass, in execution
order: a status-condition write on the in-memory instance, the installation
of the controller owner reference on the job, a `ctx.Create`, or a
`ctx.Delete` with its propagation policy. -/
inductive Event where
  | setCondition (c : CreatedConditionState)
  | setOwnerRef (j : Job)
  | createCall (j : Job)
  | deleteCall (j : Job) (policy : PropagationPolicy)
deriving DecidableEq, Repr

/-- The environment of one reconciliation pass: the outcome of each external
call the copier may issue.  `instances` is the content of the store seen by
`ctx.List`; `getTemplate` is the template renderer, applied to the
component's template path and the `FromDatabase` value. -/
structure Env where
  instances : List OdooInstance
  listErr : Option StoreErr
  getTemplate : String → String → Except StoreErr Job
  getJob : GetOutcome
  setRefErr : Option StoreErr
  createErr : Option StoreErr
  deleteErr : Option StoreErr

/-- The error value returned by `Reconcile`, tagged by its source
(the Go code returns plain `error` values; the tag records which call
produced the value, which is how the spec's error taxonomy tells them
apart). -/
inductive RErr where
  | listFailed (e : StoreErr)
  | conflictingParent
  | parentNotFound
  | templateFailed (e : StoreErr)
  | getFailed (e : StoreErr)
  | setRefFailed (e : StoreErr)
  | createFailed (e : StoreErr)
  | deleteFailed (e : StoreErr)
deriving DecidableEq, Repr

/-- The result type `reconcile.Result`; the copier only ever touches the `Requeue` field. -/
structure ReconcileResult where
  requeue : Bool
deriving DecidableEq, Repr

/-- The observable outcome of one reconciliation pass: the returned result
and error, the ordered trace of side-effecting calls, and the in-memory
instance after any status-condition writes. -/
structure Outcome where
  result : ReconcileResult
  error : Option RErr
  events : List Event
  inst : OdooInstance
deriving Repr

/-- The `ctx.Create` calls of a pass, in order. -/
def Outcome.createCalls (o : Outcome) : List Job :=
  o.events.filterMap fun e =>
    match e with
    | .createCall j => some j
    | _ => none

/-- The `ctx.Delete` calls of a pass, in order. -/
def Outcome.deleteCalls (o : Outcome) : List Job :=
  o.events.filterMap fun e =>
    match e with
    | .deleteCall j _ => some j
    | _ => none

/-- The label-selector predicate of the parent lookup: `ctx.List` restricted
to the child's namespace, matching the child's `cluster.odoo.io/name` label
value and an `instance.odoo.io/hostname` label equal to the child's declared
parent hostname. -/
def matchesParentSelector (child : OdooInstance) (parentHost : String)
    (cand : OdooInstance) : Bool :=
  cand.namespc == child.namespc &&
  cand.clusterLabel == child.clusterLabel &&
  cand.hostnameLabel == parentHost

/-- The `copierComponent` record carries only the template path. -/
structure CopierComponent where
  templatePath : String
deriving DecidableEq, Repr

/-- The helper `controllerutil.SetControllerReference`: install on the job an owner
reference to the instance. -/
def setControllerReference (i : OdooInstance) (j : Job) : Job :=
  { j with ownerRef := some ⟨i.namespc, i.name⟩ }

/-- The eligibility check `copierComponent.IsReconcilable`.  `none` models the crash of the type
assertion `ctx.Top.(*OdooInstance)` on an object of another type. -/
def isReconcilable (top : TopObject) : Option Bool :=
  match top with
  | .other => none
  | .odooInstance inst =>
    match inst.parentHostname with
    | none => some false
    | some _ =>
      match inst.createdCondition with
      | some _ => some false
      | none => some true

/-- The main pass `copierComponent.Reconcile`, embedded over `Env`.  `none` models a
crash: the failed type assertion on `ctx.Top`, or the unconditional nil
dereference `*inst.Spec.ParentHostname` when the parent hostname is
absent. -/
def reconcile (comp : CopierComponent) (env : Env) (top : TopObject) : Option Outcome :=
  match top with
  | .other => none
  | .odooInstance inst =>
    match inst.parentHostname with
    | none => none
    | some parentHost =>
      match env.listErr with
      | some e => some ⟨⟨false⟩, some (.listFailed e), [], inst⟩
      | none =>
        let parents := env.instances.filter (matchesParentSelector inst parentHost)
        if parents.length > 1 then
          some ⟨⟨false⟩, some .conflictingParent, [], inst⟩
        else
          match parents with
          | [] => some ⟨⟨true⟩, some .parentNotFound, [], inst⟩
          | parent0 :: _ =>
            match env.getTemplate comp.templatePath parent0.hostname with
            | .error e => some ⟨⟨false⟩, some (.templateFailed e), [], inst⟩
            | .ok job =>
              match env.getJob with
              | .notFound =>
                let inst1 := inst.setStatusConditionCopyJobCreationCreated
                match env.setRefErr with
                | some e =>
                  some ⟨⟨false⟩, some (.setRefFailed e),
                        [.setCondition .initiated], inst1⟩
                | none =>
                  let job1 := setControllerReference inst1 job
                  match env.createErr with
                  | some e =>
                    some ⟨⟨true⟩, some (.createFailed e),
                          [.setCondition .initiated, .setOwnerRef job1,
                           .createCall job1], inst1⟩
                  | none =>
                    some ⟨⟨false⟩, none,
                          [.setCondition .initiated, .setOwnerRef job1,
                           .createCall job1], inst1⟩
              | .storeError e => some ⟨⟨false⟩, some (.getFailed e), [], inst⟩
              | .found existing =>
                if existing.succeeded > 0 then
                  let inst1 := inst.setStatusConditionCopyJobSuccessCreated
                  match env.deleteErr with
                  | some e =>
                    some ⟨⟨true⟩, some (.deleteFailed e),
                          [.setCondition .succeeded,
                           .deleteCall existing .background], inst1⟩
                  | none =>
                    some ⟨⟨false⟩, none,
                          [.setCondition .succeeded,
                           .deleteCall existing .background], inst1⟩
                else
                  some ⟨⟨false⟩, none, [], inst⟩

/-- The store state after a `ctx.Create` of `j` succeeds: the subsequent
`ctx.Get` of the job finds it, with the freshly created job's success and
failure counters both zero. -/
def Env.afterCreate (env : Env) (j : Job) : Env :=
  { env with getJob := .found { j with succeeded := 0, failed := 0 } }

/-! Concrete fixtures, mirroring the spec's concrete scenario: child
`child-1` in namespace `ns` with parent hostname `root-1`, one matching
parent in the store, and a rendered job `copier-child-1`. -/

/-- A concrete child instance. -/
def childX : OdooInstance :=
  ⟨"ns", "child-1", "child-1.example.com", some "root-1", "c1", "child-1", none⟩

/-- A concrete parent instance matching `childX`'s parent selector. -/
def parentX : OdooInstance :=
  ⟨"ns", "root-1", "root-1.example.com", none, "c1", "root-1", none⟩

/-- A concrete rendered copy job. -/
def jobX : Job := ⟨"copier-child-1", "ns", 0, 0, none⟩

/-- A concrete template renderer that always renders `jobX`. -/
def renderX : String → String → Except StoreErr Job := fun _ _ => .ok jobX

/-- A concrete environment: one matching parent, no existing job, every
external call succeeds. -/
def envX : Env := ⟨[parentX], none, renderX, .notFound, none, none, none⟩

/-- A concrete component. -/
def compX : CopierComponent := ⟨"copier.yml.tpl"⟩

end Copier

namespace Copier

/-- Claim C3: `IsReconcilable` on an instance returns true exactly when the
instance has a parent hostname and its "Created" status condition is not
set: false whenever the parent hostname is absent, false whenever the
condition is already set (regardless of parent hostname), true otherwise. -/
theorem isReconcilable_iff_parent_and_no_condition (i : OdooInstance) :
    isReconcilable (.odooInstance i) =
      some (i.parentHostname.isSome && i.createdCondition.isNone) := by
  rcases i with ⟨ns, nm, hn, ph, cl, hl, cc⟩
  cases ph <;> cases cc <;> rfl

/-- Claim C5: When the parent lookup returns zero matching parent instances,
`Reconcile` returns a requeue-true result with the "No parent instance
found" error, and issues no create and no delete calls. -/
theorem reconcile_no_parent (comp : CopierComponent) (env : Env)
    (i : OdooInstance) (p : String)
    (hp : i.parentHostname = some p)
    (hlist : env.listErr = none)
    (hfilter : env.instances.filter (matchesParentSelector i p) = []) :
    ∃ o, reconcile comp env (.odooInstance i) = some o ∧
      o.result.requeue = true ∧
      o.error = some .parentNotFound ∧
      o.createCalls = [] ∧
      o.deleteCalls = [] := by
  refine ⟨⟨⟨true⟩, some .parentNotFound, [], i⟩, ?_, rfl, rfl, rfl, rfl⟩
  simp [reconcile, hp, hlist, hfilter]

/-- Witness for `reconcile_no_parent`: the concrete child with an empty
store. -/
theorem reconcile_no_parent_witness :
    ∃ o, reconcile compX { envX with instances := [] } (.odooInstance childX) = some o ∧
      o.result.requeue = true ∧
      o.error = some .parentNotFound ∧
      o.createCalls = [] ∧
      o.deleteCalls = [] :=
  reconcile_no_parent compX { envX with instances := [] } childX "root-1"
    rfl rfl rfl

/-- Claim C6: When the parent lookup returns two or more matching parent
instances, `Reconcile` returns the "more than one parent instance found"
error with a no-requeue result, and issues no create and no delete calls. -/
theorem reconcile_conflicting_parent (comp : CopierComponent) (env : Env)
    (i : OdooInstance) (p : String)
    (hp : i.parentHostname = some p)
    (hlist : env.listErr = none)
    (hmany : 1 < (env.instances.filter (matchesParentSelector i p)).length) :
    ∃ o, reconcile comp env (.odooInstance i) = some o ∧
      o.result.requeue = false ∧
      o.error = some .conflictingParent ∧
      o.createCalls = [] ∧
      o.deleteCalls = [] := by
  refine ⟨⟨⟨false⟩, some .conflictingParent, [], i⟩, ?_, rfl, rfl, rfl, rfl⟩
  simp [reconcile, hp, hlist, hmany]

/-- Witness for `reconcile_conflicting_parent`: the concrete child with two
copies of the parent in the store. -/
theorem reconcile_conflicting_parent_witness :
    ∃ o, reconcile compX { envX with instances := [parentX, parentX] }
        (.odooInstance childX) = some o ∧
      o.result.requeue = false ∧
      o.error = some .conflictingParent ∧
      o.createCalls = [] ∧
      o.deleteCalls = [] :=
  reconcile_conflicting_parent compX { envX with instances := [parentX, parentX] }
    childX "root-1" rfl rfl (by decide)

/-- Claim C1: With exactly one matching parent and no existing copy job
(the lookup reports not-found), `Reconcile` marks the instance's "Created"
condition as initiated before issuing the create call (the condition write
is the first event of the trace, the create call the last), installs an
owner reference from the instance onto the job, creates exactly that one
job, and — the create call succeeding — returns no error and no requeue. -/
theorem reconcile_creates_job (comp : CopierComponent) (env : Env)
    (i par : OdooInstance) (p : String) (job : Job)
    (hp : i.parentHostname = some p)
    (hlist : env.listErr = none)
    (hfilter : env.instances.filter (matchesParentSelector i p) = [par])
    (htmpl : env.getTemplate comp.templatePath par.hostname = .ok job)
    (hget : env.getJob = .notFound)
    (href : env.setRefErr = none)
    (hcreate : env.createErr = none) :
    ∃ o, reconcile comp env (.odooInstance i) = some o ∧
      o.result.requeue = false ∧
      o.error = none ∧
      o.events = [.setCondition .initiated,
                  .setOwnerRef (setControllerReference
                    i.setStatusConditionCopyJobCreationCreated job),
                  .createCall (setControllerReference
                    i.setStatusConditionCopyJobCreationCreated job)] ∧
      o.createCalls = [setControllerReference
                    i.setStatusConditionCopyJobCreationCreated job] ∧
      (setControllerReference i.setStatusConditionCopyJobCreationCreated job).ownerRef
        = some ⟨i.namespc, i.name⟩ ∧
      o.inst.createdCondition = some .initiated := by
  refine ⟨⟨⟨false⟩, none,
      [.setCondition .initiated,
       .setOwnerRef (setControllerReference
         i.setStatusConditionCopyJobCreationCreated job),
       .createCall (setControllerReference
         i.setStatusConditionCopyJobCreationCreated job)],
      i.setStatusConditionCopyJobCreationCreated⟩,
    ?_, rfl, rfl, rfl, rfl, rfl, rfl⟩
  simp [reconcile, hp, hlist, hfilter, htmpl, hget, href, hcreate]

/-- Witness for `reconcile_creates_job`: the concrete scenario of the spec,
child `child-1`, one parent `root-1`, no existing job. -/
theorem reconcile_creates_job_witness :
    ∃ o, reconcile compX envX (.odooInstance childX) = some o ∧
      o.result.requeue = false ∧
      o.error = none ∧
      o.events = [.setCondition .initiated,
                  .setOwnerRef (setControllerReference
                    childX.setStatusConditionCopyJobCreationCreated jobX),
                  .createCall (setControllerReference
                    childX.setStatusConditionCopyJobCreationCreated jobX)] ∧
      o.createCalls = [setControllerReference
                    childX.setStatusConditionCopyJobCreationCreated jobX] ∧
      (setControllerReference childX.setStatusConditionCopyJobCreationCreated jobX).ownerRef
        = some ⟨childX.namespc, childX.name⟩ ∧
      o.inst.createdCondition = some .initiated :=
  reconcile_creates_job compX envX childX parentX "root-1" jobX
    rfl rfl rfl rfl rfl rfl rfl

/-- Claim C4: When the create call fails after the not-found lookup,
`Reconcile` treats the failure as a benign race: it returns requeue-true
together with the create error, never a hard (no-requeue) failure. -/
theorem reconcile_create_race_requeues (comp : CopierComponent) (env : Env)
    (i par : OdooInstance) (p : String) (job : Job) (e : StoreErr)
    (hp : i.parentHostname = some p)
    (hlist : env.listErr = none)
    (hfilter : env.instances.filter (matchesParentSelector i p) = [par])
    (htmpl : env.getTemplate comp.templatePath par.hostname = .ok job)
    (hget : env.getJob = .notFound)
    (href : env.setRefErr = none)
    (hcreate : env.createErr = some e) :
    ∃ o, reconcile comp env (.odooInstance i) = some o ∧
      o.result.requeue = true ∧
      o.error = some (.createFailed e) := by
  refine ⟨⟨⟨true⟩, some (.createFailed e),
      [.setCondition .initiated,
       .setOwnerRef (setControllerReference
         i.setStatusConditionCopyJobCreationCreated job),
       .createCall (setControllerReference
         i.setStatusConditionCopyJobCreationCreated job)],
      i.setStatusConditionCopyJobCreationCreated⟩,
    ?_, rfl, rfl⟩
  simp [reconcile, hp, hlist, hfilter, htmpl, hget, href, hcreate]

/-- Witness for `reconcile_create_race_requeues`: the concrete scenario
with a failing create call. -/
theorem reconcile_create_race_requeues_witness :
    ∃ o, reconcile compX { envX with createErr := some ⟨7⟩ }
        (.odooInstance childX) = some o ∧
      o.result.requeue = true ∧
      o.error = some (.createFailed ⟨7⟩) :=
  reconcile_create_race_requeues compX { envX with createErr := some ⟨7⟩ }
    childX parentX "root-1" jobX ⟨7⟩ rfl rfl rfl rfl rfl rfl rfl

/-- Claim C8: Idempotency across redelivery: after a first pass that
successfully created the job, a second pass on the resulting store state
finds the job (the lookup no longer reports not-found) and issues no
create call, returning no error and no requeue. -/
theorem reconcile_idempotent_after_create (comp : CopierComponent) (env : Env)
    (i par : OdooInstance) (p : String) (job : Job)
    (hp : i.parentHostname = some p)
    (hlist : env.listErr = none)
    (hfilter : env.instances.filter (matchesParentSelector i p) = [par])
    (htmpl : env.getTemplate comp.templatePath par.hostname = .ok job)
    (hget : env.getJob = .notFound)
    (href : env.setRefErr = none)
    (hcreate : env.createErr = none) :
    ∃ o₁, reconcile comp env (.odooInstance i) = some o₁ ∧
      o₁.createCalls = [setControllerReference
        i.setStatusConditionCopyJobCreationCreated job] ∧
      ∀ j, o₁.createCalls = [j] →
        ∃ o₂, reconcile comp (env.afterCreate j) (.odooInstance i) = some o₂ ∧
          o₂.createCalls = [] ∧
          o₂.deleteCalls = [] ∧
          o₂.result.requeue = false ∧
          o₂.error = none := by
  refine ⟨⟨⟨false⟩, none,
      [.setCondition .initiated,
       .setOwnerRef (setControllerReference
         i.setStatusConditionCopyJobCreationCreated job),
       .createCall (setControllerReference
         i.setStatusConditionCopyJobCreationCreated job)],
      i.setStatusConditionCopyJobCreationCreated⟩,
    by simp [reconcile, hp, hlist, hfilter, htmpl, hget, href, hcreate], rfl, ?_⟩
  rintro j hj
  refine ⟨⟨⟨false⟩, none, [], i⟩, ?_, rfl, rfl, rfl, rfl⟩
  simp [reconcile, Env.afterCreate, hp, hlist, hfilter, htmpl]

/-- Witness for `reconcile_idempotent_after_create`: the concrete scenario,
first pass creates the job, second pass on the updated store does not. -/
theorem reconcile_idempotent_after_create_witness :
    ∃ o₁, reconcile compX envX (.odooInstance childX) = some o₁ ∧
      o₁.createCalls = [setControllerReference
        childX.setStatusConditionCopyJobCreationCreated jobX] ∧
      ∀ j, o₁.createCalls = [j] →
        ∃ o₂, reconcile compX (envX.afterCreate j) (.odooInstance childX) = some o₂ ∧
          o₂.createCalls = [] ∧
          o₂.deleteCalls = [] ∧
          o₂.result.requeue = false ∧
          o₂.error = none :=
  reconcile_idempotent_after_create compX envX childX parentX "root-1" jobX
    rfl rfl rfl rfl rfl rfl rfl

/-- Claim C2: When the existing copy job has success count > 0, `Reconcile`
marks the instance's "Created" condition as succeeded and then deletes the
job with background propagation; if the delete call fails it returns
requeue-true together with the delete error instead of a hard failure,
and if the delete succeeds it returns no error and no requeue. -/
theorem reconcile_job_success (comp : CopierComponent) (env : Env)
    (i par : OdooInstance) (p : String) (job existing : Job)
    (hp : i.parentHostname = some p)
    (hlist : env.listErr = none)
    (hfilter : env.instances.filter (matchesParentSelector i p) = [par])
    (htmpl : env.getTemplate comp.templatePath par.hostname = .ok job)
    (hget : env.getJob = .found existing)
    (hsucc : 0 < existing.succeeded) :
    ∃ o, reconcile comp env (.odooInstance i) = some o ∧
      o.inst.createdCondition = some .succeeded ∧
      o.events = [.setCondition .succeeded, .deleteCall existing .background] ∧
      o.deleteCalls = [existing] ∧
      (env.deleteErr = none → o.result.requeue = false ∧ o.error = none) ∧
      (∀ e, env.deleteErr = some e →
        o.result.requeue = true ∧ o.error = some (.deleteFailed e)) := by
  cases hdel : env.deleteErr with
  | none =>
    refine ⟨⟨⟨false⟩, none,
        [.setCondition .succeeded, .deleteCall existing .background],
        i.setStatusConditionCopyJobSuccessCreated⟩,
      ?_, rfl, rfl, rfl, fun _ => ⟨rfl, rfl⟩, ?_⟩
    · simp [reconcile, hp, hlist, hfilter, htmpl, hget, hsucc, hdel]
    · intro e he
      exact Option.noConfusion he
  | some e0 =>
    refine ⟨⟨⟨true⟩, some (.deleteFailed e0),
        [.setCondition .succeeded, .deleteCall existing .background],
        i.setStatusConditionCopyJobSuccessCreated⟩,
      ?_, rfl, rfl, rfl, ?_, ?_⟩
    · simp [reconcile, hp, hlist, hfilter, htmpl, hget, hsucc, hdel]
    · intro h
      exact Option.noConfusion h
    · intro e he
      injection he with h
      subst h
      exact ⟨rfl, rfl⟩

/-- Witness for `reconcile_job_success`: the concrete scenario with an
existing job whose success counter is 1. -/
theorem reconcile_job_success_witness :
    ∃ o, reconcile compX { envX with getJob := .found { jobX with succeeded := 1 } }
        (.odooInstance childX) = some o ∧
      o.inst.createdCondition = some .succeeded ∧
      o.events = [.setCondition .succeeded,
                  .deleteCall { jobX with succeeded := 1 } .background] ∧
      o.deleteCalls = [{ jobX with succeeded := 1 }] ∧
      ({ envX with getJob := .found { jobX with succeeded := 1 } }.deleteErr = none →
        o.result.requeue = false ∧ o.error = none) ∧
      (∀ e, { envX with getJob := .found { jobX with succeeded := 1 } }.deleteErr = some e →
        o.result.requeue = true ∧ o.error = some (.deleteFailed e)) :=
  reconcile_job_success compX { envX with getJob := .found { jobX with succeeded := 1 } }
    childX parentX "root-1" jobX { jobX with succeeded := 1 }
    rfl rfl rfl rfl rfl (by decide)

/-- Claim C7: When the existing copy job has failure count > 0 and success
count 0, `Reconcile` performs no mutation — it issues no call at all and
leaves the instance (in particular its status conditions) unchanged — and
returns a non-requeue result with no error. -/
theorem reconcile_job_failed_no_mutation (comp : CopierComponent) (env : Env)
    (i par : OdooInstance) (p : String) (job existing : Job)
    (hp : i.parentHostname = some p)
    (hlist : env.listErr = none)
    (hfilter : env.instances.filter (matchesParentSelector i p) = [par])
    (htmpl : env.getTemplate comp.templatePath par.hostname = .ok job)
    (hget : env.getJob = .found existing)
    (_hfail : 0 < existing.failed)
    (hzero : existing.succeeded = 0) :
    ∃ o, reconcile comp env (.odooInstance i) = some o ∧
      o.events = [] ∧
      o.inst = i ∧
      o.result.requeue = false ∧
      o.error = none := by
  refine ⟨⟨⟨false⟩, none, [], i⟩, ?_, rfl, rfl, rfl, rfl⟩
  simp [reconcile, hp, hlist, hfilter, htmpl, hget, hzero]

/-- Witness for `reconcile_job_failed_no_mutation`: the concrete scenario
with an existing job whose failure counter is 1. -/
theorem reconcile_job_failed_no_mutation_witness :
    ∃ o, reconcile compX { envX with getJob := .found { jobX with failed := 1 } }
        (.odooInstance childX) = some o ∧
      o.events = [] ∧
      o.inst = childX ∧
      o.result.requeue = false ∧
      o.error = none :=
  reconcile_job_failed_no_mutation compX
    { envX with getJob := .found { jobX with failed := 1 } }
    childX parentX "root-1" jobX { jobX with failed := 1 }
    rfl rfl rfl rfl rfl (by decide) rfl

/-- Claim C10: When the existing copy job has both success count > 0 and
failure count > 0, the success path takes precedence: `Reconcile` marks the
"Created" condition as succeeded and deletes the job — the success branch
does not require the failure count to be zero. -/
theorem reconcile_success_precedes_failure (comp : CopierComponent) (env : Env)
    (i par : OdooInstance) (p : String) (job existing : Job)
    (hp : i.parentHostname = some p)
    (hlist : env.listErr = none)
    (hfilter : env.instances.filter (matchesParentSelector i p) = [par])
    (htmpl : env.getTemplate comp.templatePath par.hostname = .ok job)
    (hget : env.getJob = .found existing)
    (hsucc : 0 < existing.succeeded)
    (_hfail : 0 < existing.failed)
    (hdel : env.deleteErr = none) :
    ∃ o, reconcile comp env (.odooInstance i) = some o ∧
      o.inst.createdCondition = some .succeeded ∧
      o.deleteCalls = [existing] ∧
      o.events = [.setCondition .succeeded, .deleteCall existing .background] ∧
      o.result.requeue = false ∧
      o.error = none := by
  refine ⟨⟨⟨false⟩, none,
      [.setCondition .succeeded, .deleteCall existing .background],
      i.setStatusConditionCopyJobSuccessCreated⟩,
    ?_, rfl, rfl, rfl, rfl, rfl⟩
  simp [reconcile, hp, hlist, hfilter, htmpl, hget, hsucc, hdel]

/-- Witness for `reconcile_success_precedes_failure`: the concrete scenario
with an existing job whose success and failure counters are both 1. -/
theorem reconcile_success_precedes_failure_witness :
    ∃ o, reconcile compX
        { envX with getJob := .found { jobX with succeeded := 1, failed := 1 } }
        (.odooInstance childX) = some o ∧
      o.inst.createdCondition = some .succeeded ∧
      o.deleteCalls = [{ jobX with succeeded := 1, failed := 1 }] ∧
      o.events = [.setCondition .succeeded,
                  .deleteCall { jobX with succeeded := 1, failed := 1 } .background] ∧
      o.result.requeue = false ∧
      o.error = none :=
  reconcile_success_precedes_failure compX
    { envX with getJob := .found { jobX with succeeded := 1, failed := 1 } }
    childX parentX "root-1" jobX { jobX with succeeded := 1, failed := 1 }
    rfl rfl rfl rfl rfl (by decide) (by decide) rfl

/-- Claim C9: `Reconcile` type-asserts the context's top object and
dereferences the parent hostname before any guard: it crashes on any
non-instance top object and on any instance with no parent hostname, and
it is total (crash-free) on every instance with a parent hostname —
regardless of the "Created" condition, which it never re-checks, so
eligibility must be established by `IsReconcilable` before calling it. -/
theorem reconcile_crash_guard :
    (∀ comp env, reconcile comp env .other = none) ∧
    (∀ comp env (i : OdooInstance), i.parentHostname = none →
      reconcile comp env (.odooInstance i) = none) ∧
    (∀ comp env (i : OdooInstance) (p : String), i.parentHostname = some p →
      (reconcile comp env (.odooInstance i)).isSome = true) := by
  refine ⟨fun comp env => rfl, fun comp env i hp => by simp [reconcile, hp], ?_⟩
  intro comp env i p hp
  simp only [reconcile, hp]
  split
  · rfl
  · split
    · rfl
    · split
      · rfl
      · split
        · rfl
        · split
          · split
            · rfl
            · split
              · rfl
              · rfl
          · rfl
          · split
            · split
              · rfl
              · rfl
            · rfl

/-- Witness for `reconcile_crash_guard`: the concrete child crashes with
its parent hostname removed, a non-instance top object crashes, and the
unmodified child reconciles without crashing. -/
theorem reconcile_crash_guard_witness :
    reconcile compX envX .other = none ∧
    reconcile compX envX (.odooInstance { childX with parentHostname := none }) = none ∧
    (reconcile compX envX (.odooInstance childX)).isSome = true :=
  ⟨reconcile_crash_guard.1 compX envX,
   reconcile_crash_guard.2.1 compX envX { childX with parentHostname := none } rfl,
   reconcile_crash_guard.2.2 compX envX childX "root-1" rfl⟩

end Copier
